import Mathlib

/-!
# Verification of the LookOutCV schema-evolving append logger

Shallow embedding of the core of the LookOutCV repository:

* `src/logger/logger.py` — `BaseLogger` (`_create_schema`, `_evolve_schema`,
  `calculate_image_metrics`, `log_prediction`, `save_to_parquet`) and the
  `CVMetrics` enum;
* `src/detection/detection_logger.py` — the `_MANDATORY_FIELDS` list;
* `src/metrics/metrics.py` — the attribute set of `ImageMetricsCalculator`
  (which determines dynamic metric dispatch via `hasattr`);
* `src/metrics/data_insights.py` — `DataInsightsCalculator._load_data`.

Parquet tables are modelled as a schema (ordered list of named, typed columns)
together with a list of rows (each row a list of cells).  Python dictionaries
are modelled as association lists with first-match lookup; Python `None` is a
distinguished `Raw.rnone` value; arbitrary non-coercible Python objects (lists,
dicts, ...) are `Raw.robject`.  Numeric scalars are modelled over `Int` (no
claim in question depends on fractional values).  Exceptions are modelled with
`Except`/`Option`, and effect ordering (metric computation, file I/O) is made
observable through explicit boolean flags in the result of `log_prediction`.
-/

/-- The `CVMetrics` enum of `src/logger/logger.py` (members CONTRAST, BLUR,
ORIENTATION, and the bbox-ratio member, written `BBOX_R` here, an
abbreviation of the source spelling; its string value below is unchanged). -/
inductive CVMetrics where
  | CONTRAST
  | BLUR
  | ORIENTATION
  | BBOX_R
deriving DecidableEq, Repr

/-- `CVMetrics.value`: the enum's auto value is the lowercased member name
(via `_generate_next_value_`). -/
def CVMetrics.value : CVMetrics → String
  | .CONTRAST => "contrast"
  | .BLUR => "blur"
  | .ORIENTATION => "orientation"
  | .BBOX_R => "bbox_ratio"

/-- Distinct enum members have distinct string values. -/
theorem CVMetrics.value_injective : ∀ a b : CVMetrics, a.value = b.value → a = b := by
  intro a b h
  cases a <;> cases b <;> first
    | rfl
    | exact absurd h (by decide)

/-- Declared column types used by the logger's schemas.  `_create_schema` only
produces `STRING` and `FLOAT32`; `save_to_parquet` additionally branches on
integer and boolean arrow column types, so those are representable too. -/
inductive DType where
  | STRING
  | FLOAT32
  | INT64
  | BOOL
deriving DecidableEq, Repr

/-- A stored parquet cell: either null or a typed scalar. -/
inductive Cell where
  | null
  | cstr (s : String)
  | cfloat (n : Int)
  | cint (n : Int)
  | cbool (b : Bool)
deriving DecidableEq, Repr

/-- A parquet table: named, typed columns plus rows of cells. -/
structure Table where
  schema : List (String × DType)
  rows : List (List Cell)
deriving DecidableEq, Repr

/-- A caller-supplied Python value, as seen by `save_to_parquet`'s coercion. -/
inductive Raw where
  | rnone
  | rstr (s : String)
  | rnum (n : Int)
  | rbool (b : Bool)
  | robject (tag : String) -- any other Python object (list, dict, ...)
deriving DecidableEq, Repr

/-- First-match association-list lookup; models Python `dict` lookup /
`dict.get` (dict keys are unique, so first match is the only match). -/
def alistGet? {α : Type} (l : List (String × α)) (k : String) : Option α :=
  match l with
  | [] => none
  | (k', v) :: rest => if k' = k then some v else alistGet? rest k

/-- Contiguous-substring test on character lists (helper for `strContains`). -/
def containsSlice (pat : List Char) (l : List Char) : Bool :=
  match l with
  | [] => pat.isEmpty
  | _ :: t => pat.isPrefixOf l || containsSlice pat t

/-- Model of Python's `in` test on strings (`"name" in field_name`). -/
def strContains (s pat : String) : Bool :=
  containsSlice pat.data s.data

/-- `_MANDATORY_FIELDS` of `src/detection/detection_logger.py` (lines 29-31). -/
def _MANDATORY_FIELDS : List String :=
  ["image_name", "pred_class", "confidence",
   "bbox_x1", "bbox_y1", "bbox_x2", "bbox_y2"]

/-- The per-field dtype choice inside `_create_schema` (logger.py lines 71-77):
string when the field name contains "name" or "class", float32 otherwise. -/
def mandatoryFieldType (field_name : String) : DType :=
  if strContains field_name "name" || strContains field_name "class" then
    DType.STRING
  else
    DType.FLOAT32

/-- `BaseLogger._create_schema` (logger.py lines 68-83): mandatory fields in
fixed order, then one float32 field per enabled metric in enablement order. -/
def _create_schema (enabled_metrics : List CVMetrics) : List (String × DType) :=
  _MANDATORY_FIELDS.map (fun n => (n, mandatoryFieldType n))
    ++ enabled_metrics.map (fun f => (f.value, DType.FLOAT32))

/-- The fresh store created on the open/create path of `BaseLogger.__init__`
(logger.py lines 58-64): an empty table with the desired schema. -/
def freshTable (enabled_metrics : List CVMetrics) : Table :=
  { schema := _create_schema enabled_metrics, rows := [] }

/-- `existing_table.append_column(col, pa.array([None]*num_rows, pa.float32()))`
(logger.py lines 97-99): appends a float32 column of nulls at the end. -/
def appendNullColumn (t : Table) (col : String) : Table :=
  { schema := t.schema ++ [(col, DType.FLOAT32)],
    rows := t.rows.map (fun r => r ++ [Cell.null]) }

/-- `missing_cols = expected_cols - existing_cols` (logger.py lines 88-93).
Python iterates this set in an unspecified order; it is modelled here in the
order of first occurrence in the desired schema. -/
def missingCols (existing : Table) (desired : List (String × DType)) : List String :=
  (desired.map Prod.fst).filter
    (fun n => !((existing.schema.map Prod.fst).contains n))

/-- `BaseLogger._evolve_schema` (logger.py lines 85-104), parameterised over the
desired schema (the source computes `desired = self._create_schema()`): each
missing column is appended at the end as float32 with null backfill; when no
column is missing the file is not rewritten (table unchanged). -/
def _evolve_schema (existing : Table) (desired : List (String × DType)) : Table :=
  (missingCols existing desired).foldl appendNullColumn existing

/-- Unfolding the evolution fold: the schema gains one float32 column per
missing name, appended at the end, and every row gains one null per missing
name, appended at the end. -/
theorem foldl_appendNullColumn (l : List String) (t : Table) :
    l.foldl appendNullColumn t =
      { schema := t.schema ++ l.map (fun n => (n, DType.FLOAT32)),
        rows := t.rows.map (fun r => r ++ List.replicate l.length Cell.null) } := by
  induction l generalizing t with
  | nil =>
    simp [List.foldl]
  | cons a l ih =>
    simp only [List.foldl_cons, ih, appendNullColumn, List.map_map,
      List.length_cons, List.map_cons, Table.mk.injEq]
    refine ⟨by simp, ?_⟩
    apply List.map_congr_left
    intro r _
    simp [Function.comp_def, List.append_assoc, List.replicate_succ]

/-! ## Metric computation (`src/metrics/metrics.py` and
`BaseLogger.calculate_image_metrics`) -/

/-- Abstraction of a non-null Python `image` argument, as observed by the
metric pipeline: whether `ImageMetricsCalculator.__init__` raises on it
(bad path, undecodable data), and, when construction succeeds, the outcome of
each calculator method invoked on the resulting context — `some v` when the
method returns `v`, `none` when the call raises. -/
structure PyImage where
  ctorFails : Bool
  methodResult : String → Option Int

/-- The attribute names defined on an `ImageMetricsCalculator` instance
(`src/metrics/metrics.py` lines 21-53): the `image` attribute, `_set_image`,
and the four `calculate_*` methods.  Note the orientation method is named
`calculate_orientation_type`, and no `calculate_bbox_ratio` exists. -/
def imageMetricsCalculatorAttrs : List String :=
  ["image", "_set_image",
   "calculate_contrast", "calculate_blur",
   "calculate_orientation_type", "calculate_brightness"]

/-- `hasattr(calc, name)` for an `ImageMetricsCalculator` instance. -/
def calcHasAttr (name : String) : Bool :=
  imageMetricsCalculatorAttrs.contains name

/-- Body of the per-metric dispatch loop of `calculate_image_metrics`
(logger.py lines 128-137): `value = None`; if the calculator has a method
named `calculate_<metric>`, call it, recovering an exception to `None`. -/
def dispatchMetric (img : PyImage) (f : CVMetrics) : Option Int :=
  if calcHasAttr ("calculate_" ++ f.value) then
    img.methodResult ("calculate_" ++ f.value)
  else
    none

/-- `BaseLogger.calculate_image_metrics` (logger.py lines 106-139),
instrumented: the second component records whether the construction of the
`ImageMetricsCalculator` image context (line 122) was attempted.  The result
dictionary is modelled as an association list in loop order. -/
def calculate_image_metrics_t (enabled_metrics : List CVMetrics)
    (image : Option PyImage) : List (String × Option Int) × Bool :=
  if image.isNone || enabled_metrics.isEmpty then
    (enabled_metrics.map (fun f => (f.value, none)), false)
  else
    match image with
    | none => (enabled_metrics.map (fun f => (f.value, none)), false)
    | some img =>
      if img.ctorFails then
        (enabled_metrics.map (fun f => (f.value, none)), true)
      else
        (enabled_metrics.map (fun f => (f.value, dispatchMetric img f)), true)

/-- `BaseLogger.calculate_image_metrics`: the returned metric dictionary. -/
def calculate_image_metrics (enabled_metrics : List CVMetrics)
    (image : Option PyImage) : List (String × Option Int) :=
  (calculate_image_metrics_t enabled_metrics image).1

/-! ## Append path (`BaseLogger.save_to_parquet` and `log_prediction`) -/

/-- Model of the Python builtin `int(x)` as used in the coercion chain:
succeeds on numbers and booleans and on (signed) decimal numeral strings,
fails (`TypeError`/`ValueError`) on `None`, other strings and other objects. -/
def parseDigitsAux : List Char → Nat → Option Nat
  | [], acc => some acc
  | c :: cs, acc =>
    if c.isDigit then parseDigitsAux cs (acc * 10 + (c.toNat - 48)) else none

/-- Parse a (signed) decimal numeral, `none` on anything else. -/
def parseIntLit (s : String) : Option Int :=
  match s.data with
  | [] => none
  | '-' :: cs =>
    if cs.isEmpty then none
    else (parseDigitsAux cs 0).map (fun n => -(n : Int))
  | cs => (parseDigitsAux cs 0).map (fun n => (n : Int))

/-- Python `int(value)` on a `Raw` value. -/
def rawToInt : Raw → Option Int
  | .rnone => none
  | .rstr s => parseIntLit s
  | .rnum n => some n
  | .rbool b => some (if b then 1 else 0)
  | .robject _ => none

/-- Python `float(value)` on a `Raw` value (floats are modelled over `Int`;
numeral-string parsing is modelled by the same decimal-literal parser). -/
def rawToFloat : Raw → Option Int
  | .rnone => none
  | .rstr s => parseIntLit s
  | .rnum n => some n
  | .rbool b => some (if b then 1 else 0)
  | .robject _ => none

/-- Python `bool(value)` on a `Raw` value (truthiness; never raises). -/
def rawToBool : Raw → Option Bool
  | .rnone => some false
  | .rstr s => some (s ≠ "")
  | .rnum n => some (n ≠ 0)
  | .rbool b => some b
  | .robject _ => some true

/-- Python `str(value)` on a `Raw` value (never raises; the repr of an opaque
object is abstracted by its tag). -/
def rawToStr : Raw → Option String
  | .rnone => some "None"
  | .rstr s => some s
  | .rnum n => some (toString n)
  | .rbool b => some (if b then "True" else "False")
  | .robject tag => some tag

/-- The `try` block of `save_to_parquet` (logger.py lines 195-203): coerce the
value to the column's declared arrow type; `none` means the coercion raised
(recovered to null by the `except` on lines 204-206). -/
def coerceValue (ft : DType) (v : Raw) : Option Cell :=
  match ft with
  | .INT64 => (rawToInt v).map Cell.cint
  | .FLOAT32 => (rawToFloat v).map Cell.cfloat
  | .BOOL => (rawToBool v).map Cell.cbool
  | .STRING => (rawToStr v).map Cell.cstr

/-- The cell written for one column by `save_to_parquet` (lines 180, 186-207):
`value = data.get(name, None)`; a missing key or `None` value becomes null
(lines 192-193); otherwise the value is coerced to the declared type, with a
coercion failure recovered to null for that column alone (lines 204-207). -/
def cellFor (col : String × DType) (data : List (String × Raw)) : Cell :=
  match alistGet? data col.1 with
  | none => Cell.null
  | some Raw.rnone => Cell.null
  | some v => (coerceValue col.2 v).getD Cell.null

/-- `BaseLogger.save_to_parquet` (logger.py lines 168-211), success path
(file readable and writable): build a single row conforming to the current
schema and concatenate it after the existing rows. -/
def save_to_parquet (t : Table) (data : List (String × Raw)) : Table :=
  { t with rows := t.rows ++ [t.schema.map (fun c => cellFor c data)] }

/-- The validation loop of `log_prediction` (logger.py lines 151-157): collect
`kwargs[field]` for each mandatory field in order, raising
`ValueError("Missing mandatory field: <field>")` at the first absent key. -/
def collectMandatory (fields : List String) (kwargs : List (String × Raw)) :
    Except String (List (String × Raw)) :=
  match fields with
  | [] => .ok []
  | f :: fs =>
    match alistGet? kwargs f with
    | some v => (collectMandatory fs kwargs).map (fun rest => (f, v) :: rest)
    | none => .error ("Missing mandatory field: " ++ f)

/-- Python `d[k] = v` on an association-list dictionary: overwrite the
existing binding in place, or append a new binding at the end. -/
def dictSet (d : List (String × Raw)) (k : String) (v : Raw) :
    List (String × Raw) :=
  if d.any (fun p => p.1 = k) then
    d.map (fun p => if p.1 = k then (p.1, v) else p)
  else
    d ++ [(k, v)]

/-- Python `d.update(kvs)` on association-list dictionaries. -/
def dictUpdate (d : List (String × Raw)) (kvs : List (String × Raw)) :
    List (String × Raw) :=
  kvs.foldl (fun acc p => dictSet acc p.1 p.2) d

/-- A computed metric value as it enters the row dictionary
(`data.update(computed_metrics)`, logger.py line 161): `None` or a float. -/
def rawOfMetric : Option Int → Raw
  | none => Raw.rnone
  | some v => Raw.rnum v

/-- Observable outcome of one `log_prediction` call: the resulting on-disk
table, the exception propagated to the caller (if any), and whether metric
computation (line 160) and store I/O (`save_to_parquet`, line 164) ran. -/
structure LogOutcome where
  store : Table
  err : Option String
  metricsComputed : Bool
  ioPerformed : Bool
deriving DecidableEq, Repr

/-- `BaseLogger.log_prediction` (logger.py lines 141-166) against the store
state `t`.  The caller's keyword arguments are split into the row-data
dictionary `kwargs` and the optional `image` argument (`kwargs.get("image")`,
line 160); the image never enters the row data, since `"image"` is neither a
mandatory field nor a metric column.  Validation failure raises before any
metric computation or I/O, leaving the store untouched. -/
def log_prediction (enabled_metrics : List CVMetrics) (t : Table)
    (kwargs : List (String × Raw)) (image : Option PyImage) : LogOutcome :=
  match collectMandatory _MANDATORY_FIELDS kwargs with
  | .error e => { store := t, err := some e, metricsComputed := false, ioPerformed := false }
  | .ok data =>
    let computed := calculate_image_metrics enabled_metrics image
    let data' := dictUpdate data (computed.map (fun p => (p.1, rawOfMetric p.2)))
    { store := save_to_parquet t data', err := none,
      metricsComputed := true, ioPerformed := true }

/-! ## Analytics consumer (`src/metrics/data_insights.py`) -/

/-- `DataInsightsCalculator._load_data` (data_insights.py lines 22-31), with
the glob result made explicit: `parquetFiles` is the list of tables stored in
the files matched by `glob` over the model's directory, in glob order.  When
no file matches, an error is raised; otherwise `pq.read_table(parquet_files[0])`
loads only the first matched file. -/
def _load_data (parquetFiles : List Table) : Except String Table :=
  match parquetFiles with
  | [] => .error "No parquet files found"
  | f :: _ => .ok f

/-! ## Shared lemmas -/

/-- Looking up a metric's value in a dictionary built by mapping over the
enabled-metric list yields the entry computed for that metric (metric string
values are injective, so a first-match lookup cannot be shadowed). -/
theorem alistGet_map_value {β : Type} (x : CVMetrics → β)
    (enabled_metrics : List CVMetrics) (f : CVMetrics)
    (hf : f ∈ enabled_metrics) :
    alistGet? (enabled_metrics.map (fun g => (g.value, x g))) f.value
      = some (x f) := by
  induction enabled_metrics with
  | nil => cases hf
  | cons g l ih =>
    simp only [List.map_cons, alistGet?]
    by_cases h : g.value = f.value
    · rw [CVMetrics.value_injective g f h]
      simp
    · rw [if_neg h]
      refine ih ?_
      cases hf with
      | head => exact absurd rfl h
      | tail _ hm => exact hm

/-- Characterisation of one metric's entry in the result of
`calculate_image_metrics` on a non-null image: null when context construction
fails, otherwise the metric's own dispatch outcome (independent of which other
metrics are enabled). -/
theorem lookup_calculate_image_metrics (enabled_metrics : List CVMetrics)
    (img : PyImage) (f : CVMetrics) (hf : f ∈ enabled_metrics) :
    alistGet? (calculate_image_metrics enabled_metrics (some img)) f.value
      = some (if img.ctorFails then none else dispatchMetric img f) := by
  have hne : enabled_metrics.isEmpty = false := by
    cases enabled_metrics with
    | nil => cases hf
    | cons a l => rfl
  rw [calculate_image_metrics, calculate_image_metrics_t]
  simp only [Option.isNone_some, hne, Bool.or_self, if_false]
  cases hci : img.ctorFails with
  | true =>
    exact alistGet_map_value (fun _ => (none : Option Int)) _ f hf
  | false =>
    exact alistGet_map_value (dispatchMetric img) _ f hf

/-- If the validation loop succeeds, every mandatory field key was present in
the keyword arguments. -/
theorem collectMandatory_ok_keys (fields : List String)
    (kwargs : List (String × Raw)) (d : List (String × Raw))
    (h : collectMandatory fields kwargs = .ok d) :
    ∀ f ∈ fields, (alistGet? kwargs f).isSome := by
  induction fields generalizing d with
  | nil => intro f hf; cases hf
  | cons g fs ih =>
    intro f hf
    rw [collectMandatory] at h
    cases hg : alistGet? kwargs g with
    | none => rw [hg] at h; cases h
    | some v =>
      rw [hg] at h
      cases hf with
      | head => rw [hg]; rfl
      | tail _ hm =>
        cases hr : collectMandatory fs kwargs with
        | error e => rw [hr] at h; cases h
        | ok rest => exact ih rest hr f hm

/-- If some mandatory field key is absent, the validation loop raises. -/
theorem collectMandatory_missing_error (fields : List String)
    (kwargs : List (String × Raw)) (f : String) (hf : f ∈ fields)
    (hmiss : alistGet? kwargs f = none) :
    ∃ e, collectMandatory fields kwargs = .error e := by
  induction fields with
  | nil => cases hf
  | cons g fs ih =>
    rw [collectMandatory]
    cases hg : alistGet? kwargs g with
    | none => exact ⟨_, rfl⟩
    | some v =>
      have hfs : f ∈ fs := by
        cases hf with
        | head => rw [hg] at hmiss; cases hmiss
        | tail _ hm => exact hm
      obtain ⟨e, he⟩ := ih hfs
      rw [he]
      exact ⟨e, rfl⟩

/-! ## Claim theorems -/

/-- C2: schema reconciliation (`_evolve_schema`) only ever adds columns.  For
every existing store file and every desired schema, the existing columns are a
prefix of the resulting schema (so each is present, with its declared type
unchanged, in its original order); every added column is a desired column
absent from the file, appended at the end; and no column is removed, so after
each logger construction against the same store the column set is a superset
of the previous one. -/
theorem evolve_schema_only_adds_columns (existing : Table)
    (desired : List (String × DType)) :
    ∃ added : List String,
      (_evolve_schema existing desired).schema
          = existing.schema ++ added.map (fun n => (n, DType.FLOAT32))
      ∧ (∀ n ∈ added,
           n ∈ desired.map Prod.fst ∧ n ∉ existing.schema.map Prod.fst)
      ∧ ∀ c ∈ existing.schema, c ∈ (_evolve_schema existing desired).schema := by
  refine ⟨missingCols existing desired, ?_, ?_, ?_⟩
  · rw [_evolve_schema, foldl_appendNullColumn]
  · intro n hn
    rw [missingCols, List.mem_filter] at hn
    refine ⟨hn.1, ?_⟩
    intro hmem
    have h2 := hn.2
    simp at h2
    obtain ⟨c, hc, hcn⟩ := List.mem_map.mp hmem
    exact h2 c.2 (by rw [← hcn]; exact hc)
  · intro c hc
    rw [_evolve_schema, foldl_appendNullColumn]
    exact List.mem_append_left _ hc

/-- C3: a schema-evolution reconcile preserves the row count exactly, and
every pre-existing row is extended with nulls in every newly added column
(position `existing-row-length + i` holds null for each of the added
columns). -/
theorem evolve_schema_null_backfill (existing : Table)
    (desired : List (String × DType)) :
    (_evolve_schema existing desired).rows.length = existing.rows.length
    ∧ (_evolve_schema existing desired).rows
        = existing.rows.map
            (fun r =>
              r ++ List.replicate (missingCols existing desired).length Cell.null)
    ∧ ∀ r ∈ existing.rows, ∀ i : Nat,
        (r ++ List.replicate (missingCols existing desired).length Cell.null)[r.length + i]?
          = if i < (missingCols existing desired).length then some Cell.null
            else none := by
  refine ⟨?_, ?_, ?_⟩
  · rw [_evolve_schema, foldl_appendNullColumn]
    simp
  · rw [_evolve_schema, foldl_appendNullColumn]
  · intro r _ i
    rw [List.getElem?_append_right (Nat.le_add_right _ _)]
    simp [List.getElem?_replicate]

/-- C7: `_create_schema` is a total function of the enabled-metric list and
produces exactly the seven mandatory fields in their fixed order — the "name"/
"class" fields as STRING, the rest as FLOAT32 — followed by one FLOAT32 field
per enabled metric, in enablement order. -/
theorem create_schema_shape (enabled_metrics : List CVMetrics) :
    _create_schema enabled_metrics =
      [("image_name", DType.STRING), ("pred_class", DType.STRING),
       ("confidence", DType.FLOAT32), ("bbox_x1", DType.FLOAT32),
       ("bbox_y1", DType.FLOAT32), ("bbox_x2", DType.FLOAT32),
       ("bbox_y2", DType.FLOAT32)]
      ++ enabled_metrics.map (fun f => (f.value, DType.FLOAT32)) := rfl

/-- C8: for a non-empty enabled-metric list, `calculate_image_metrics` on a
null image returns (without raising — it is a total function) a dictionary
assigning null to every enabled metric, and the image-decoding context is
never constructed (the instrumentation flag is `false`). -/
theorem no_image_fast_path (enabled_metrics : List CVMetrics)
    (h : enabled_metrics ≠ []) :
    calculate_image_metrics_t enabled_metrics none
        = (enabled_metrics.map (fun f => (f.value, (none : Option Int))), false)
    ∧ ∀ f ∈ enabled_metrics,
        alistGet? (calculate_image_metrics enabled_metrics none) f.value
          = some none := by
  constructor
  · rw [calculate_image_metrics_t]
    simp
  · intro f hf
    rw [calculate_image_metrics, calculate_image_metrics_t]
    simp only [Option.isNone_none, Bool.true_or, if_true]
    exact alistGet_map_value (fun _ => (none : Option Int)) _ f hf

/-- Witness for C8 at the spec's example input `{contrast, blur}`. -/
theorem no_image_fast_path_witness :
    calculate_image_metrics_t [CVMetrics.CONTRAST, CVMetrics.BLUR] none
        = ([CVMetrics.CONTRAST, CVMetrics.BLUR].map
             (fun f => (f.value, (none : Option Int))), false)
    ∧ ∀ f ∈ [CVMetrics.CONTRAST, CVMetrics.BLUR],
        alistGet? (calculate_image_metrics [CVMetrics.CONTRAST, CVMetrics.BLUR] none)
            f.value
          = some none :=
  no_image_fast_path [CVMetrics.CONTRAST, CVMetrics.BLUR] (by decide)

/-- C6: `calculate_image_metrics` never raises (it is a total function), and
each enabled metric's entry depends only on that metric: when context
construction fails every enabled metric resolves to null, and otherwise each
enabled metric resolves to its own dispatch outcome — so a failure computing
one metric (its dispatch outcome is null) leaves every sibling metric's value
untouched, the right-hand side being independent of the rest of the enabled
list. -/
theorem metric_failure_independence (enabled_metrics : List CVMetrics)
    (img : PyImage) (f : CVMetrics) (hf : f ∈ enabled_metrics) :
    alistGet? (calculate_image_metrics enabled_metrics (some img)) f.value
      = some (if img.ctorFails then none else dispatchMetric img f) :=
  lookup_calculate_image_metrics enabled_metrics img f hf

/-- Witness for C6: blur's computation raises (`none`) while contrast computes
`7`; contrast still resolves to `7`, blur alone to null. -/
theorem metric_failure_independence_witness :
    alistGet?
        (calculate_image_metrics [CVMetrics.BLUR, CVMetrics.CONTRAST]
          (some { ctorFails := false,
                  methodResult := fun n =>
                    if n = "calculate_contrast" then some 7 else none }))
        CVMetrics.CONTRAST.value
      = some
          (if ({ ctorFails := false,
                 methodResult := fun n =>
                   if n = "calculate_contrast" then some 7 else none } : PyImage).ctorFails
           then none
           else dispatchMetric
             { ctorFails := false,
               methodResult := fun n =>
                 if n = "calculate_contrast" then some 7 else none }
             CVMetrics.CONTRAST) :=
  metric_failure_independence [CVMetrics.BLUR, CVMetrics.CONTRAST]
    { ctorFails := false,
      methodResult := fun n => if n = "calculate_contrast" then some 7 else none }
    CVMetrics.CONTRAST (by decide)

/-- C9: metric dispatch looks up a method named `calculate_<metric id>`;
`ImageMetricsCalculator` defines `calculate_orientation_type` but no
`calculate_orientation` and no `calculate_bbox_ratio`, so for every image
(whether or not context construction succeeds) the ORIENTATION and BBOX_R
metrics always resolve to null when enabled. -/
theorem orientation_bbox_ratio_always_null (enabled_metrics : List CVMetrics)
    (img : PyImage)
    (h1 : CVMetrics.ORIENTATION ∈ enabled_metrics)
    (h2 : CVMetrics.BBOX_R ∈ enabled_metrics) :
    alistGet? (calculate_image_metrics enabled_metrics (some img)) "orientation"
        = some none
    ∧ alistGet? (calculate_image_metrics enabled_metrics (some img)) "bbox_ratio"
        = some none := by
  have hd1 : dispatchMetric img CVMetrics.ORIENTATION = none := by
    rw [dispatchMetric, if_neg]
    intro hc
    exact absurd hc (by decide)
  have hd2 : dispatchMetric img CVMetrics.BBOX_R = none := by
    rw [dispatchMetric, if_neg]
    intro hc
    exact absurd hc (by decide)
  constructor
  · have := lookup_calculate_image_metrics enabled_metrics img
      CVMetrics.ORIENTATION h1
    rw [show ("orientation" : String) = CVMetrics.ORIENTATION.value from rfl, this,
      hd1]
    cases img.ctorFails <;> rfl
  · have := lookup_calculate_image_metrics enabled_metrics img
      CVMetrics.BBOX_R h2
    rw [show ("bbox_ratio" : String) = CVMetrics.BBOX_R.value from rfl, this,
      hd2]
    cases img.ctorFails <;> rfl

/-- Witness for C9: a healthy image context whose every method call would
return 5, yet orientation and bbox_ratio both resolve to null. -/
theorem orientation_bbox_ratio_always_null_witness :
    alistGet?
        (calculate_image_metrics [CVMetrics.ORIENTATION, CVMetrics.BBOX_R]
          (some { ctorFails := false, methodResult := fun _ => some 5 }))
        "orientation"
      = some none
    ∧ alistGet?
        (calculate_image_metrics [CVMetrics.ORIENTATION, CVMetrics.BBOX_R]
          (some { ctorFails := false, methodResult := fun _ => some 5 }))
        "bbox_ratio"
      = some none :=
  orientation_bbox_ratio_always_null [CVMetrics.ORIENTATION, CVMetrics.BBOX_R]
    { ctorFails := false, methodResult := fun _ => some 5 }
    (by decide) (by decide)

/-- C4: every append writes a row with exactly one cell per schema column
(never a missing key); each column's cell is computed from that column's own
supplied value alone, and a value that fails coercion to the column's declared
type yields null for that column while the append of the full row still
succeeds (the new table is the old rows plus the one full-width row). -/
theorem append_row_completeness (t : Table) (data : List (String × Raw)) :
    (save_to_parquet t data).rows
        = t.rows ++ [t.schema.map (fun c => cellFor c data)]
    ∧ (t.schema.map (fun c => cellFor c data)).length = t.schema.length
    ∧ ∀ c ∈ t.schema, ∀ v, alistGet? data c.1 = some v → v ≠ Raw.rnone →
        coerceValue c.2 v = none → cellFor c data = Cell.null := by
  refine ⟨rfl, List.length_map _ _, ?_⟩
  intro c _ v hv hne hfail
  rw [cellFor, hv]
  cases v with
  | rnone => exact absurd rfl hne
  | rstr s =>
    show (coerceValue c.2 (Raw.rstr s)).getD Cell.null = Cell.null
    rw [hfail]
    rfl
  | rnum n =>
    show (coerceValue c.2 (Raw.rnum n)).getD Cell.null = Cell.null
    rw [hfail]
    rfl
  | rbool b =>
    show (coerceValue c.2 (Raw.rbool b)).getD Cell.null = Cell.null
    rw [hfail]
    rfl
  | robject tag =>
    show (coerceValue c.2 (Raw.robject tag)).getD Cell.null = Cell.null
    rw [hfail]
    rfl

/-- Witness for C4: an opaque object (e.g. a Python list) supplied for a
float32 column fails coercion and is written as null. -/
theorem append_row_completeness_witness :
    cellFor ("confidence", DType.FLOAT32) [("confidence", Raw.robject "list")]
      = Cell.null :=
  (append_row_completeness
      { schema := [("confidence", DType.FLOAT32)], rows := [] }
      [("confidence", Raw.robject "list")]).2.2
    ("confidence", DType.FLOAT32) (by decide)
    (Raw.robject "list") (by decide) (by decide) (by decide)

/-- Counterexample to C1: a `log_prediction` call supplying every mandatory
field *key* but `None` as the value of `confidence` succeeds (no exception:
`err = none`) and appends a row whose `confidence` cell — a mandatory field —
is null.  Validation (logger.py lines 153-157) checks only key presence, and
`save_to_parquet` writes a null for a `None` value (lines 192-193). -/
theorem mandatory_null_counterexample :
    log_prediction [] (freshTable [])
        [("image_name", Raw.rstr "img.jpg"), ("pred_class", Raw.rstr "cat"),
         ("confidence", Raw.rnone), ("bbox_x1", Raw.rnum 1),
         ("bbox_y1", Raw.rnum 2), ("bbox_x2", Raw.rnum 3),
         ("bbox_y2", Raw.rnum 4)] none
      = { store :=
            { schema :=
                [("image_name", DType.STRING), ("pred_class", DType.STRING),
                 ("confidence", DType.FLOAT32), ("bbox_x1", DType.FLOAT32),
                 ("bbox_y1", DType.FLOAT32), ("bbox_x2", DType.FLOAT32),
                 ("bbox_y2", DType.FLOAT32)],
              rows :=
                [[Cell.cstr "img.jpg", Cell.cstr "cat", Cell.null,
                  Cell.cfloat 1, Cell.cfloat 2, Cell.cfloat 3, Cell.cfloat 4]] },
          err := none, metricsComputed := true, ioPerformed := true } := by
  rfl

/-- C1 as amended: every `log_prediction` call that succeeds had every one of
the seven mandatory field *keys* present in its arguments, and it appends
exactly one row with one cell per schema column — but a mandatory field's cell
is null whenever the caller supplied `None` (or a non-coercible value) for it,
so non-nullness of mandatory cells is not guaranteed. -/
theorem log_prediction_success_row_shape (enabled_metrics : List CVMetrics)
    (t : Table) (kwargs : List (String × Raw)) (image : Option PyImage)
    (h : (log_prediction enabled_metrics t kwargs image).err = none) :
    (∀ f ∈ _MANDATORY_FIELDS, (alistGet? kwargs f).isSome)
    ∧ ∃ row : List Cell,
        (log_prediction enabled_metrics t kwargs image).store.rows
            = t.rows ++ [row]
        ∧ row.length = t.schema.length := by
  cases hc : collectMandatory _MANDATORY_FIELDS kwargs with
  | error e =>
    rw [log_prediction, hc] at h
    cases h
  | ok data =>
    refine ⟨collectMandatory_ok_keys _ kwargs data hc, ?_⟩
    rw [log_prediction, hc]
    exact ⟨_, rfl, List.length_map _ _⟩

/-- Witness for the amended C1, at the counterexample's successful input. -/
theorem log_prediction_success_row_shape_witness :
    (∀ f ∈ _MANDATORY_FIELDS,
        (alistGet?
          [("image_name", Raw.rstr "img.jpg"), ("pred_class", Raw.rstr "cat"),
           ("confidence", Raw.rnone), ("bbox_x1", Raw.rnum 1),
           ("bbox_y1", Raw.rnum 2), ("bbox_x2", Raw.rnum 3),
           ("bbox_y2", Raw.rnum 4)] f).isSome)
    ∧ ∃ row : List Cell,
        (log_prediction [] (freshTable [])
            [("image_name", Raw.rstr "img.jpg"), ("pred_class", Raw.rstr "cat"),
             ("confidence", Raw.rnone), ("bbox_x1", Raw.rnum 1),
             ("bbox_y1", Raw.rnum 2), ("bbox_x2", Raw.rnum 3),
             ("bbox_y2", Raw.rnum 4)] none).store.rows
            = (freshTable []).rows ++ [row]
        ∧ row.length = (freshTable []).schema.length :=
  log_prediction_success_row_shape [] (freshTable [])
    [("image_name", Raw.rstr "img.jpg"), ("pred_class", Raw.rstr "cat"),
     ("confidence", Raw.rnone), ("bbox_x1", Raw.rnum 1),
     ("bbox_y1", Raw.rnum 2), ("bbox_x2", Raw.rnum 3),
     ("bbox_y2", Raw.rnum 4)] none (by rfl)

/-- C5: when some mandatory field key is absent from the arguments,
`log_prediction` raises the validation `ValueError` before any metric
computation or file I/O (both instrumentation flags are `false`), and the
store — in particular its row count — is unchanged. -/
theorem missing_mandatory_field_no_write (enabled_metrics : List CVMetrics)
    (t : Table) (kwargs : List (String × Raw)) (image : Option PyImage)
    (f : String) (hf : f ∈ _MANDATORY_FIELDS)
    (hmiss : alistGet? kwargs f = none) :
    (log_prediction enabled_metrics t kwargs image).err.isSome
    ∧ (log_prediction enabled_metrics t kwargs image).store = t
    ∧ (log_prediction enabled_metrics t kwargs image).store.rows.length
        = t.rows.length
    ∧ (log_prediction enabled_metrics t kwargs image).metricsComputed = false
    ∧ (log_prediction enabled_metrics t kwargs image).ioPerformed = false := by
  obtain ⟨e, he⟩ := collectMandatory_missing_error _MANDATORY_FIELDS kwargs f hf hmiss
  rw [log_prediction, he]
  exact ⟨rfl, rfl, rfl, rfl, rfl⟩

/-- Witness for C5, at the spec's scenario: `bbox_y2` omitted. -/
theorem missing_mandatory_field_no_write_witness :
    (log_prediction [] (freshTable [])
        [("image_name", Raw.rstr "img.jpg"), ("pred_class", Raw.rstr "cat"),
         ("confidence", Raw.rnum 1), ("bbox_x1", Raw.rnum 1),
         ("bbox_y1", Raw.rnum 2), ("bbox_x2", Raw.rnum 3)] none).err.isSome
    ∧ (log_prediction [] (freshTable [])
        [("image_name", Raw.rstr "img.jpg"), ("pred_class", Raw.rstr "cat"),
         ("confidence", Raw.rnum 1), ("bbox_x1", Raw.rnum 1),
         ("bbox_y1", Raw.rnum 2), ("bbox_x2", Raw.rnum 3)] none).store
        = freshTable []
    ∧ (log_prediction [] (freshTable [])
        [("image_name", Raw.rstr "img.jpg"), ("pred_class", Raw.rstr "cat"),
         ("confidence", Raw.rnum 1), ("bbox_x1", Raw.rnum 1),
         ("bbox_y1", Raw.rnum 2), ("bbox_x2", Raw.rnum 3)] none).store.rows.length
        = (freshTable []).rows.length
    ∧ (log_prediction [] (freshTable [])
        [("image_name", Raw.rstr "img.jpg"), ("pred_class", Raw.rstr "cat"),
         ("confidence", Raw.rnum 1), ("bbox_x1", Raw.rnum 1),
         ("bbox_y1", Raw.rnum 2), ("bbox_x2", Raw.rnum 3)] none).metricsComputed
        = false
    ∧ (log_prediction [] (freshTable [])
        [("image_name", Raw.rstr "img.jpg"), ("pred_class", Raw.rstr "cat"),
         ("confidence", Raw.rnum 1), ("bbox_x1", Raw.rnum 1),
         ("bbox_y1", Raw.rnum 2), ("bbox_x2", Raw.rnum 3)] none).ioPerformed
        = false :=
  missing_mandatory_field_no_write [] (freshTable [])
    [("image_name", Raw.rstr "img.jpg"), ("pred_class", Raw.rstr "cat"),
     ("confidence", Raw.rnum 1), ("bbox_x1", Raw.rnum 1),
     ("bbox_y1", Raw.rnum 2), ("bbox_x2", Raw.rnum 3)] none
    "bbox_y2" (by decide) (by rfl)

/-- Counterexample to C10: with two parquet files matched by the glob,
`_load_data` returns only the first file's table (`pq.read_table(parquet_files[0])`,
data_insights.py line 28); the second matched file's row `[Cell.cfloat 2]` does
not appear in the loaded data, contradicting "every matched file's rows appear
in the loaded data". -/
theorem load_data_counterexample :
    _load_data
        [{ schema := [("confidence", DType.FLOAT32)], rows := [[Cell.cfloat 1]] },
         { schema := [("confidence", DType.FLOAT32)], rows := [[Cell.cfloat 2]] }]
      = Except.ok
          { schema := [("confidence", DType.FLOAT32)], rows := [[Cell.cfloat 1]] }
    ∧ [Cell.cfloat 2]
        ∉ ({ schema := [("confidence", DType.FLOAT32)],
             rows := [[Cell.cfloat 1]] } : Table).rows := by
  exact ⟨rfl, by decide⟩

/-- C10 as amended: `_load_data` raises when the glob matches no file, and
otherwise loads exactly the first matched file — only that file's rows appear
in the table the analytics consumer analyzes. -/
theorem load_data_reads_first_file (f : Table) (rest : List Table) :
    _load_data (f :: rest) = Except.ok f
    ∧ _load_data ([] : List Table) = Except.error "No parquet files found" :=
  ⟨rfl, rfl⟩

/-- Witness for C2 at a concrete one-column file evolved toward the schema for
enabled metrics `[contrast]`. -/
theorem evolve_schema_only_adds_columns_witness :
    ∃ added : List String,
      (_evolve_schema
          { schema := [("a", DType.FLOAT32)], rows := [[Cell.cfloat 1]] }
          (_create_schema [CVMetrics.CONTRAST])).schema
          = ({ schema := [("a", DType.FLOAT32)],
               rows := [[Cell.cfloat 1]] } : Table).schema
              ++ added.map (fun n => (n, DType.FLOAT32))
      ∧ (∀ n ∈ added,
           n ∈ (_create_schema [CVMetrics.CONTRAST]).map Prod.fst
           ∧ n ∉ ({ schema := [("a", DType.FLOAT32)],
                    rows := [[Cell.cfloat 1]] } : Table).schema.map Prod.fst)
      ∧ ∀ c ∈ ({ schema := [("a", DType.FLOAT32)],
                 rows := [[Cell.cfloat 1]] } : Table).schema,
          c ∈ (_evolve_schema
                { schema := [("a", DType.FLOAT32)], rows := [[Cell.cfloat 1]] }
                (_create_schema [CVMetrics.CONTRAST])).schema :=
  evolve_schema_only_adds_columns
    { schema := [("a", DType.FLOAT32)], rows := [[Cell.cfloat 1]] }
    (_create_schema [CVMetrics.CONTRAST])

/-- Witness for C3 at the same concrete evolution. -/
theorem evolve_schema_null_backfill_witness :
    (_evolve_schema
        { schema := [("a", DType.FLOAT32)], rows := [[Cell.cfloat 1]] }
        (_create_schema [CVMetrics.CONTRAST])).rows.length
        = ({ schema := [("a", DType.FLOAT32)],
             rows := [[Cell.cfloat 1]] } : Table).rows.length
    ∧ (_evolve_schema
        { schema := [("a", DType.FLOAT32)], rows := [[Cell.cfloat 1]] }
        (_create_schema [CVMetrics.CONTRAST])).rows
        = ({ schema := [("a", DType.FLOAT32)],
             rows := [[Cell.cfloat 1]] } : Table).rows.map
            (fun r =>
              r ++ List.replicate
                (missingCols
                  { schema := [("a", DType.FLOAT32)], rows := [[Cell.cfloat 1]] }
                  (_create_schema [CVMetrics.CONTRAST])).length Cell.null)
    ∧ ∀ r ∈ ({ schema := [("a", DType.FLOAT32)],
               rows := [[Cell.cfloat 1]] } : Table).rows, ∀ i : Nat,
        (r ++ List.replicate
            (missingCols
              { schema := [("a", DType.FLOAT32)], rows := [[Cell.cfloat 1]] }
              (_create_schema [CVMetrics.CONTRAST])).length Cell.null)[r.length + i]?
          = if i < (missingCols
                { schema := [("a", DType.FLOAT32)], rows := [[Cell.cfloat 1]] }
                (_create_schema [CVMetrics.CONTRAST])).length
            then some Cell.null else none :=
  evolve_schema_null_backfill
    { schema := [("a", DType.FLOAT32)], rows := [[Cell.cfloat 1]] }
    (_create_schema [CVMetrics.CONTRAST])
